import Mathlib

/-!
Shallow embedding of `Utils::getRearCameraId` from
`src/evs/support_library/Utils.cpp` (Android EVS support library), together
with theorems about its device-resolution behaviour.

The C++ function loads a camera configuration, acquires the EVS enumerator
service, and walks the enumerated camera list: for each enumerated camera it
scans the configured entries in order, and on the first configured entry
whose `cameraId` equals the enumerated id and whose `function` string
contains `"reverse"` as a substring it stores that enumerated id and returns
from the callback. The stored id starts out as the empty string, which is
also the published not-found value.
-/

namespace EvsSupport

/-- Record of one configured camera as consumed by `Utils::getRearCameraId`
through `ConfigManager::getCameras()`: a device identifier and the function
string assigned to it in the configuration. -/
structure CameraInfo where
  cameraId : String
  function : String
deriving DecidableEq, Repr

/-- Descriptor of one enumerated camera as delivered by the EVS service
callback; the source reads only its `cameraId` field. -/
structure CameraDesc where
  cameraId : String
deriving DecidableEq, Repr

/-- Helper for substring containment over character lists: some suffix of
the scanned list starts with the pattern. -/
def listContainsSub (pat : List Char) : List Char → Bool
  | [] => pat.isEmpty
  | c :: rest => pat.isPrefixOf (c :: rest) || listContainsSub pat rest

/-- Embedding of the C++ test `s.find(pat) != std::string::npos`: the
pattern occurs as a contiguous substring of `s`. -/
def strContains (s pat : String) : Bool :=
  listContainsSub pat.data s.data

/-- Inner loop of `Utils::getRearCameraId`: scan the configured cameras in
order; on an entry whose id equals the enumerated camera id and whose
function string contains `target`, assign and return the enumerated id.
An entry with an equal id but a non-matching function does not stop the
scan, since the source has no early exit in that case. -/
def scanConfig (target : String) (cam : CameraDesc) : List CameraInfo → Option String
  | [] => none
  | info :: rest =>
    if cam.cameraId == info.cameraId then
      if strContains info.function target then some cam.cameraId
      else scanConfig target cam rest
    else scanConfig target cam rest

/-- Outer loop of the `getCameraList` callback: walk the enumerated cameras
in order; the first camera for which the inner scan succeeds supplies the
result, and the captured `cameraId` variable keeps its initial empty-string
value when every camera fails. -/
def scanCameraList (target : String) (config : List CameraInfo) : List CameraDesc → String
  | [] => ""
  | cam :: rest =>
    match scanConfig target cam config with
    | some id => id
    | none => scanCameraList target config rest

/-- Embedding of `Utils::getRearCameraId`. `initOk` is the boolean result of
`ConfigManager::initialize`; `service` is `none` when
`IEvsEnumerator::getService` returned null and otherwise carries the camera
list the `getCameraList` callback delivers; `config` is the contents of
`ConfigManager::getCameras()`. The target function is the literal
`"reverse"` of the source. -/
def getRearCameraId (initOk : Bool) (service : Option (List CameraDesc))
    (config : List CameraInfo) : String :=
  if initOk then
    match service with
    | none => ""
    | some cameraList => scanCameraList "reverse" config cameraList
  else ""

/-- Per-device matching predicate extracted from the loops: some configured
entry carries exactly this enumerated id together with a function string
containing the target. -/
def matchesDev (target : String) (config : List CameraInfo) (cam : CameraDesc) : Bool :=
  config.any (fun info => cam.cameraId == info.cameraId && strContains info.function target)

/-- Device-level matching rule as the specification assumes it for duplicate
identifiers (first-occurrence-wins): only the first configured entry bearing
the device id is consulted. -/
def matchesDevFirstOccurrence (target : String) (config : List CameraInfo)
    (cam : CameraDesc) : Bool :=
  match config.find? (fun info => cam.cameraId == info.cameraId) with
  | some info => strContains info.function target
  | none => false

theorem scanConfig_eq (target : String) (cam : CameraDesc) :
    ∀ config : List CameraInfo,
      scanConfig target cam config =
        (if matchesDev target config cam then some cam.cameraId else none)
  | [] => rfl
  | info :: rest => by
    have ih := scanConfig_eq target cam rest
    simp only [scanConfig, matchesDev, List.any_cons] at *
    by_cases h1 : (cam.cameraId == info.cameraId) = true
    · by_cases h2 : strContains info.function target = true
      · simp [h1, h2]
      · rw [Bool.not_eq_true] at h2
        simp [h1, h2, ih]
    · rw [Bool.not_eq_true] at h1
      simp [h1, ih]

theorem scanCameraList_eq_find (target : String) (config : List CameraInfo) :
    ∀ devs : List CameraDesc,
      scanCameraList target config devs =
        (match devs.find? (matchesDev target config) with
         | some cam => cam.cameraId
         | none => "")
  | [] => rfl
  | cam :: rest => by
    have ih := scanCameraList_eq_find target config rest
    rw [scanCameraList, scanConfig_eq]
    cases h : matchesDev target config cam <;> simp [List.find?, h, ih]

theorem matchesDev_iff (target : String) (config : List CameraInfo) (cam : CameraDesc) :
    matchesDev target config cam = true ↔
      ∃ info ∈ config, info.cameraId = cam.cameraId ∧ strContains info.function target = true := by
  rw [matchesDev, List.any_eq_true]
  constructor
  · rintro ⟨info, hmem, hp⟩
    rw [Bool.and_eq_true, beq_iff_eq] at hp
    exact ⟨info, hmem, hp.1.symm, hp.2⟩
  · rintro ⟨info, hmem, he, hc⟩
    refine ⟨info, hmem, ?_⟩
    rw [Bool.and_eq_true, beq_iff_eq]
    exact ⟨he.symm, hc⟩

theorem scanConfig_eq_none (target : String) (cam : CameraDesc)
    (config : List CameraInfo) (h : ∀ info ∈ config, info.cameraId ≠ cam.cameraId) :
    scanConfig target cam config = none := by
  rw [scanConfig_eq]
  cases hm : matchesDev target config cam
  · rfl
  · obtain ⟨info, hmem, he, _⟩ := (matchesDev_iff target config cam).mp hm
    exact absurd he (h info hmem)

/-- Registry with two entries for the same id `A`, whose first occurrence
does not mention the reverse function. -/
def cfgDup : List CameraInfo := [⟨"A", "parking"⟩, ⟨"A", "reverse"⟩]

/-- Enumeration consisting of the single device `A`. -/
def devsA : List CameraDesc := [⟨"A"⟩]

/-- Registry used by the substring example: `A` carries a longer tag that
contains the target, `C` carries the exact tag. -/
def cfgAssist : List CameraInfo := [⟨"A", "reverse-assist"⟩, ⟨"C", "reverse"⟩]

/-- Enumeration order `A` before `C`. -/
def devsAC : List CameraDesc := [⟨"A"⟩, ⟨"C"⟩]

/-- Enumeration consisting of one device whose id is the empty string. -/
def devsEmptyId : List CameraDesc := [⟨""⟩]

/-- Registry assigning the reverse function to the empty-string id. -/
def cfgEmptyId : List CameraInfo := [⟨"", "reverse"⟩]

/-- C1: for every enumerated device list and every registry contents, the
resolution returns the id of the first device in enumeration order that has
a registry entry with an exactly equal id whose function string contains
the target "reverse" as a substring; no device past the first match
influences the result, and an exhausted enumeration yields the empty
string. -/
theorem resolve_first_match_wins (devs : List CameraDesc) (config : List CameraInfo) :
    getRearCameraId true (some devs) config =
      (match devs.find? (matchesDev "reverse" config) with
       | some cam => cam.cameraId
       | none => "") :=
  scanCameraList_eq_find "reverse" config devs

/-- C2 counterexample: with duplicate registry entries for id `A` whose
first occurrence lacks the target function, the claimed
first-occurrence-wins rule predicts no match for device `A`, yet the code
matches `A` through the second occurrence and returns it. -/
theorem dup_first_occurrence_refuted :
    matchesDevFirstOccurrence "reverse" cfgDup ⟨"A"⟩ = false ∧
    getRearCameraId true (some devsA) cfgDup = "A" := by decide

/-- C2 amended: with duplicate identifiers the resolver scans every entry
bearing the id, so a device matches exactly when SOME registry entry with
its id has a function string containing the target (any-occurrence-wins),
not only when the first such entry does. -/
theorem dup_any_occurrence_wins (target : String) (config : List CameraInfo)
    (cam : CameraDesc) :
    (scanConfig target cam config).isSome = true ↔
      ∃ info ∈ config, info.cameraId = cam.cameraId ∧
        strContains info.function target = true := by
  rw [scanConfig_eq, ← matchesDev_iff target config cam]
  cases h : matchesDev target config cam <;> simp [h]

/-- C3: matching is substring containment, not exact equality: with
registry entries A ↦ "reverse-assist" and C ↦ "reverse" and enumeration
order A before C, resolving "reverse" returns A. -/
theorem substring_match_first :
    getRearCameraId true (some devsAC) cfgAssist = "A" := by decide

/-- C4: when registry initialization failed, resolution returns the empty
string for every service state and registry contents, including a
non-empty enumeration list. -/
theorem init_failure_not_found (service : Option (List CameraDesc))
    (config : List CameraInfo) :
    getRearCameraId false service config = "" := rfl

/-- C5: an unreachable enumeration service yields the not-found result and
is indistinguishable, through the returned value, from a reachable service
reporting zero devices. -/
theorem service_unreachable_like_empty (initOk : Bool) (config : List CameraInfo) :
    getRearCameraId initOk none config = "" ∧
    getRearCameraId initOk none config = getRearCameraId initOk (some []) config := by
  cases initOk <;> exact ⟨rfl, rfl⟩

/-- C6: an enumerated device whose id equals no registry entry id is never
a candidate: removing it from the enumeration leaves the result
unchanged. -/
theorem unknown_device_skipped (pre post : List CameraDesc) (d : CameraDesc)
    (config : List CameraInfo)
    (h : ∀ info ∈ config, info.cameraId ≠ d.cameraId) :
    getRearCameraId true (some (pre ++ d :: post)) config =
      getRearCameraId true (some (pre ++ post)) config := by
  show scanCameraList "reverse" config (pre ++ d :: post) =
    scanCameraList "reverse" config (pre ++ post)
  induction pre with
  | nil =>
    show scanCameraList "reverse" config (d :: post) = scanCameraList "reverse" config post
    rw [scanCameraList, scanConfig_eq_none "reverse" d config h]
  | cons cam pre ih =>
    rw [List.cons_append, List.cons_append, scanCameraList, scanCameraList]
    cases scanConfig "reverse" cam config
    · exact ih
    · rfl

/-- Witness for C6 at a concrete input: device B appears in no registry
entry of `cfgAssist`, and dropping it from the enumeration leaves the
result unchanged. -/
theorem unknown_device_skipped_witness :
    (∀ info ∈ cfgAssist, info.cameraId ≠ (⟨"B"⟩ : CameraDesc).cameraId) ∧
    getRearCameraId true (some ([] ++ ⟨"B"⟩ :: [⟨"C"⟩])) cfgAssist =
      getRearCameraId true (some ([] ++ [⟨"C"⟩])) cfgAssist :=
  ⟨by decide, unknown_device_skipped [] [⟨"C"⟩] ⟨"B"⟩ cfgAssist (by decide)⟩

/-- C7: an empty enumeration list always resolves to the empty string,
whatever the registry contents and the initialization outcome. -/
theorem empty_enumeration_not_found (initOk : Bool) (config : List CameraInfo) :
    getRearCameraId initOk (some []) config = "" := by
  cases initOk <;> rfl

/-- C8: resolution is a pure function of the initialization outcome, the
enumeration list and the registry contents: two runs with identical inputs
return identical results, and the embedding carries no mutable state, so
neither input is changed by running it. -/
theorem resolve_deterministic (initOk : Bool) (service : Option (List CameraDesc))
    (config : List CameraInfo) :
    getRearCameraId initOk service config = getRearCameraId initOk service config := rfl

/-- C9: a non-empty result is sound: it is the id of some device in the
supplied enumeration list, and some registry entry carries that same id
with a function string containing "reverse" as a substring. -/
theorem nonempty_result_sound (devs : List CameraDesc) (config : List CameraInfo)
    (h : getRearCameraId true (some devs) config ≠ "") :
    (∃ d ∈ devs, d.cameraId = getRearCameraId true (some devs) config) ∧
    (∃ info ∈ config, info.cameraId = getRearCameraId true (some devs) config ∧
      strContains info.function "reverse" = true) := by
  have key : getRearCameraId true (some devs) config =
      (match devs.find? (matchesDev "reverse" config) with
       | some cam => cam.cameraId
       | none => "") :=
    scanCameraList_eq_find "reverse" config devs
  cases hf : devs.find? (matchesDev "reverse" config) with
  | none =>
    rw [key, hf] at h
    exact absurd rfl h
  | some cam =>
    rw [key, hf]
    constructor
    · exact ⟨cam, List.mem_of_find?_eq_some hf, rfl⟩
    · have hm : matchesDev "reverse" config cam = true := List.find?_some hf
      obtain ⟨info, hmem, he, hc⟩ := (matchesDev_iff "reverse" config cam).mp hm
      exact ⟨info, hmem, he, hc⟩

/-- Witness for C9 at a concrete input: the resolution over `devsAC` and
`cfgAssist` returns the non-empty id A, which belongs to the enumeration
and to a registry entry whose function contains "reverse". -/
theorem nonempty_result_sound_witness :
    (getRearCameraId true (some devsAC) cfgAssist ≠ "") ∧
    ((∃ d ∈ devsAC, d.cameraId = getRearCameraId true (some devsAC) cfgAssist) ∧
     (∃ info ∈ cfgAssist, info.cameraId = getRearCameraId true (some devsAC) cfgAssist ∧
       strContains info.function "reverse" = true)) :=
  ⟨by decide, nonempty_result_sound devsAC cfgAssist (by decide)⟩

/-- C10: the not-found value shares its representation with a successful
match on an empty device id: when the first matching enumerated device has
the empty id, the operation returns the empty string, identical to the
result of an empty enumeration, so the caller can tell success from
not-found only when the matched id is non-empty. -/
theorem empty_id_match_indistinguishable (devs : List CameraDesc)
    (config : List CameraInfo) (d : CameraDesc)
    (h1 : devs.find? (matchesDev "reverse" config) = some d)
    (h2 : d.cameraId = "") :
    getRearCameraId true (some devs) config = "" ∧
    getRearCameraId true (some devs) config =
      getRearCameraId true (some []) config := by
  have key : getRearCameraId true (some devs) config =
      (match devs.find? (matchesDev "reverse" config) with
       | some cam => cam.cameraId
       | none => "") :=
    scanCameraList_eq_find "reverse" config devs
  rw [key, h1]
  exact ⟨h2, h2⟩

/-- Witness for C10 at a concrete input: a device with the empty id is the
first match, and the result collapses to the not-found value. -/
theorem empty_id_match_indistinguishable_witness :
    (devsEmptyId.find? (matchesDev "reverse" cfgEmptyId) = some ⟨""⟩) ∧
    (getRearCameraId true (some devsEmptyId) cfgEmptyId = "" ∧
     getRearCameraId true (some devsEmptyId) cfgEmptyId =
       getRearCameraId true (some []) cfgEmptyId) :=
  ⟨by decide, empty_id_match_indistinguishable devsEmptyId cfgEmptyId ⟨""⟩
    (by decide) rfl⟩

end EvsSupport
